import Mathlib

/-!
Verification of the Pezeshk, Zandieh & Tavakoli (2011) ground-motion model
(`pygmm/pezeshk_zandieh_tavakoli_2011.py`) against its specification.

The numeric computations are embedded over the exact reals `ℝ`; the
parameter-validation layer (whose implementation lives in the base `model`
module, outside the excerpt) is modelled from the spec over `ℚ` so that it is
executable and decidable.
-/

namespace PygmmPZT2011

/-- One row of the per-period coefficient table `COEFF`: named numeric fields
`c1..c14` plus `sigma_reg` and the period value itself. -/
structure Coeff where
  period : ℝ
  c1 : ℝ
  c2 : ℝ
  c3 : ℝ
  c4 : ℝ
  c5 : ℝ
  c6 : ℝ
  c7 : ℝ
  c8 : ℝ
  c9 : ℝ
  c10 : ℝ
  c11 : ℝ
  c12 : ℝ
  c13 : ℝ
  c14 : ℝ
  sigma_reg : ℝ

/-- Effective distance, from `_calc_ln_resp`:
`dist = np.sqrt(p['dist_rup'] ** 2 + c['c11'] ** 2)`. -/
noncomputable def dist (dist_rup : ℝ) (c : Coeff) : ℝ :=
  Real.sqrt (dist_rup ^ 2 + c.c11 ^ 2)

/-- Near-field part of the `log10_resp` sum in `_calc_ln_resp`:
`c1 + c2*mag + c3*mag**2 + (c4 + c5*mag) * min(log10(d), log10(70))`. -/
noncomputable def nearTerm (mag d : ℝ) (c : Coeff) : ℝ :=
  c.c1 + c.c2 * mag + c.c3 * mag ^ 2 +
    (c.c4 + c.c5 * mag) * min (Real.logb 10 d) (Real.logb 10 70)

/-- Mid-field part of the `log10_resp` sum in `_calc_ln_resp`:
`(c6 + c7*mag) * max(min(log10(d/70), log10(140/70)), 0)`. -/
noncomputable def midTerm (mag d : ℝ) (c : Coeff) : ℝ :=
  (c.c6 + c.c7 * mag) *
    max (min (Real.logb 10 (d / 70)) (Real.logb 10 (140 / 70))) 0

/-- Far-field part of the `log10_resp` sum in `_calc_ln_resp`:
`(c8 + c9*mag) * max(log10(d/140), 0)`. -/
noncomputable def farTerm (mag d : ℝ) (c : Coeff) : ℝ :=
  (c.c8 + c.c9 * mag) * max (Real.logb 10 (d / 140)) 0

/-- The `log10_resp` intermediate of `_calc_ln_resp`, for one coefficient row:
the sum of the near-field, mid-field, far-field and anelastic (`c10 * dist`)
terms, all evaluated at the effective distance. -/
noncomputable def log10_resp (mag dist_rup : ℝ) (c : Coeff) : ℝ :=
  nearTerm mag (dist dist_rup c) c +
    midTerm mag (dist dist_rup c) c +
    farTerm mag (dist dist_rup c) c +
    c.c10 * dist dist_rup c

/-- One row of `_calc_ln_resp`: `ln_resp = np.log(np.power(10, log10_resp))`,
the natural log of `10` raised to the real power `log10_resp`. -/
noncomputable def calc_ln_resp_row (mag dist_rup : ℝ) (c : Coeff) : ℝ :=
  Real.log ((10 : ℝ) ^ log10_resp mag dist_rup c)

/-- `_calc_ln_resp`: the vectorized computation maps the row formula over the
coefficient table, preserving row order. -/
noncomputable def calc_ln_resp (mag dist_rup : ℝ) (coeff : List Coeff) : List ℝ :=
  coeff.map (calc_ln_resp_row mag dist_rup)

/-- The `ln_std_mean` intermediate of `_calc_ln_std`: `c12*mag + c13` when
`mag <= 7`, else `-6.95e-3*mag + c14` (the slope a fixed literal). -/
noncomputable def ln_std_mean (mag : ℝ) (c : Coeff) : ℝ :=
  if mag ≤ 7 then c.c12 * mag + c.c13 else -6.95e-3 * mag + c.c14

/-- One row of `_calc_ln_std`: `ln_std = np.sqrt(ln_std_mean ** 2 + sigma_reg ** 2)`. -/
noncomputable def calc_ln_std_row (mag : ℝ) (c : Coeff) : ℝ :=
  Real.sqrt (ln_std_mean mag c ^ 2 + c.sigma_reg ^ 2)

/-- `_calc_ln_std`: the vectorized computation maps the row formula over the
coefficient table, preserving row order. -/
noncomputable def calc_ln_std (mag : ℝ) (coeff : List Coeff) : List ℝ :=
  coeff.map (calc_ln_std_row mag)

/-- The spec's statement of the per-row mean-response formula, written out
verbatim from the spec's own words (section 4.1, steps 1-3) to be compared
with the source-derived `calc_ln_resp_row`: with
`d = sqrt(dist_rup^2 + c11^2)`, the base-10 log response is the sum of the
near-field, mid-field, far-field and anelastic terms, and the result is
`ln(10^log10_resp)`. -/
noncomputable def spec_ln_resp_row (mag dist_rup : ℝ) (c : Coeff) : ℝ :=
  let d : ℝ := Real.sqrt (dist_rup ^ 2 + c.c11 ^ 2)
  let specLog10 : ℝ :=
    (c.c1 + c.c2 * mag + c.c3 * mag ^ 2 +
        (c.c4 + c.c5 * mag) * min (Real.logb 10 d) (Real.logb 10 70)) +
      (c.c6 + c.c7 * mag) *
        max (min (Real.logb 10 (d / 70)) (Real.logb 10 (140 / 70))) 0 +
      (c.c8 + c.c9 * mag) * max (Real.logb 10 (d / 140)) 0 +
      c.c10 * d
  Real.log ((10 : ℝ) ^ specLog10)

/-- C1: for every coefficient row, the natural-log mean response computed by
`_calc_ln_resp` equals the spec's formula: the natural log of `10` raised to
the sum of the near-field, mid-field, far-field and anelastic terms, each
evaluated at the effective distance `sqrt(dist_rup^2 + c11^2)`; it is a pure
function of `(mag, dist_rup, row)`. -/
theorem calc_ln_resp_row_eq_spec (mag dist_rup : ℝ) (c : Coeff) :
    calc_ln_resp_row mag dist_rup c = spec_ln_resp_row mag dist_rup c := by
  unfold calc_ln_resp_row spec_ln_resp_row log10_resp nearTerm midTerm farTerm dist
  ring_nf

/-- C8: the final conversion step of `_calc_ln_resp` computes
`ln(10^log10_resp)`, and for every real exponent this equals
`log10_resp * ln(10)`: the two forms are mathematically equivalent. -/
theorem ln_resp_row_eq_mul_log_ten :
    (∀ x : ℝ, Real.log ((10 : ℝ) ^ x) = x * Real.log 10) ∧
      ∀ mag dist_rup : ℝ, ∀ c : Coeff,
        calc_ln_resp_row mag dist_rup c = log10_resp mag dist_rup c * Real.log 10 := by
  constructor
  · intro x
    exact Real.log_rpow (by norm_num) x
  · intro mag dist_rup c
    exact Real.log_rpow (by norm_num) _

/-- A model instance after construction (`__init__`): the two derived
sequences are computed eagerly and cached together with the inputs. -/
structure Instance where
  mag : ℝ
  dist_rup : ℝ
  ln_resp : List ℝ
  ln_std : List ℝ

/-- Construction of a validated instance (`__init__`, lines 49-51): both
cached sequences are computed from the inputs and the coefficient table. -/
noncomputable def mkInstance (mag dist_rup : ℝ) (coeff : List Coeff) : Instance :=
  { mag := mag
    dist_rup := dist_rup
    ln_resp := calc_ln_resp mag dist_rup coeff
    ln_std := calc_ln_std mag coeff }

/-- An all-zero coefficient row, used to instantiate theorems at concrete
inputs. -/
def zeroRow : Coeff :=
  { period := 0, c1 := 0, c2 := 0, c3 := 0, c4 := 0, c5 := 0, c6 := 0,
    c7 := 0, c8 := 0, c9 := 0, c10 := 0, c11 := 0, c12 := 0, c13 := 0,
    c14 := 0, sigma_reg := 0 }

/-- C2: for every coefficient row, `_calc_ln_std` returns
`sqrt(ln_std_mean^2 + sigma_reg^2)` with `ln_std_mean = c12*mag + c13` when
`mag <= 7` and `ln_std_mean = -6.95e-3*mag + c14` when `mag > 7`; at
`mag = 7` exactly the first branch is used. -/
theorem calc_ln_std_row_eq_spec (mag : ℝ) (c : Coeff) :
    (mag ≤ 7 →
        calc_ln_std_row mag c =
          Real.sqrt ((c.c12 * mag + c.c13) ^ 2 + c.sigma_reg ^ 2)) ∧
      (7 < mag →
        calc_ln_std_row mag c =
          Real.sqrt ((-6.95e-3 * mag + c.c14) ^ 2 + c.sigma_reg ^ 2)) ∧
      calc_ln_std_row 7 c =
        Real.sqrt ((c.c12 * 7 + c.c13) ^ 2 + c.sigma_reg ^ 2) := by
  refine ⟨fun h => ?_, fun h => ?_, ?_⟩
  · rw [calc_ln_std_row, ln_std_mean, if_pos h]
  · rw [calc_ln_std_row, ln_std_mean, if_neg (not_le.mpr h)]
  · rw [calc_ln_std_row, ln_std_mean, if_pos (le_refl (7 : ℝ))]

/-- Witness for C2: both branch hypotheses discharged at concrete magnitudes
(6 and 8) on the zero coefficient row, and the exact boundary case. -/
theorem calc_ln_std_row_eq_spec_witness :
    calc_ln_std_row 6 zeroRow =
        Real.sqrt ((zeroRow.c12 * 6 + zeroRow.c13) ^ 2 + zeroRow.sigma_reg ^ 2) ∧
      calc_ln_std_row 8 zeroRow =
        Real.sqrt ((-6.95e-3 * 8 + zeroRow.c14) ^ 2 + zeroRow.sigma_reg ^ 2) ∧
      calc_ln_std_row 7 zeroRow =
        Real.sqrt ((zeroRow.c12 * 7 + zeroRow.c13) ^ 2 + zeroRow.sigma_reg ^ 2) :=
  ⟨(calc_ln_std_row_eq_spec 6 zeroRow).1 (by norm_num),
    (calc_ln_std_row_eq_spec 8 zeroRow).2.1 (by norm_num),
    (calc_ln_std_row_eq_spec 7 zeroRow).2.2⟩

/-- C10: for every magnitude and every coefficient row, the computed standard
deviation `sqrt(ln_std_mean^2 + sigma_reg^2)` is nonnegative and at least
`|sigma_reg|`. -/
theorem calc_ln_std_row_lower_bound (mag : ℝ) (c : Coeff) :
    0 ≤ calc_ln_std_row mag c ∧ |c.sigma_reg| ≤ calc_ln_std_row mag c := by
  constructor
  · exact Real.sqrt_nonneg _
  · calc |c.sigma_reg| = Real.sqrt (c.sigma_reg ^ 2) := (Real.sqrt_sq_eq_abs _).symm
      _ ≤ calc_ln_std_row mag c :=
        Real.sqrt_le_sqrt (le_add_of_nonneg_left (sq_nonneg _))

/-- C9: `dist_rup` enters the mean response only through its square, so
negating it leaves `ln_resp` unchanged; and the cached `ln_std` sequence does
not depend on `dist_rup` at all. -/
theorem outputs_sign_invariant (mag d d₂ : ℝ) (coeff : List Coeff) :
    (mkInstance mag d coeff).ln_resp = (mkInstance mag (-d) coeff).ln_resp ∧
      (mkInstance mag d coeff).ln_std = (mkInstance mag d₂ coeff).ln_std := by
  constructor
  · show calc_ln_resp mag d coeff = calc_ln_resp mag (-d) coeff
    unfold calc_ln_resp
    have hrow : calc_ln_resp_row mag d = calc_ln_resp_row mag (-d) := by
      funext c
      unfold calc_ln_resp_row log10_resp nearTerm midTerm farTerm dist
      rw [neg_pow, show ((-1 : ℝ)) ^ 2 = 1 by norm_num, one_mul]
    rw [hrow]
  · rfl

/-- C7: determinism: two instances constructed from identical inputs over
the same coefficient table carry identical `ln_resp` sequences and identical
`ln_std` sequences. -/
theorem outputs_deterministic (mag₁ d₁ mag₂ d₂ : ℝ) (coeff : List Coeff)
    (hm : mag₁ = mag₂) (hd : d₁ = d₂) :
    (mkInstance mag₁ d₁ coeff).ln_resp = (mkInstance mag₂ d₂ coeff).ln_resp ∧
      (mkInstance mag₁ d₁ coeff).ln_std = (mkInstance mag₂ d₂ coeff).ln_std := by
  subst hm; subst hd; exact ⟨rfl, rfl⟩

/-- Witness for C7: two runs at `mag = 6`, `dist_rup = 20` over a concrete
one-row table agree. -/
theorem outputs_deterministic_witness :
    (mkInstance 6 20 [zeroRow]).ln_resp = (mkInstance 6 20 [zeroRow]).ln_resp ∧
      (mkInstance 6 20 [zeroRow]).ln_std = (mkInstance 6 20 [zeroRow]).ln_std :=
  outputs_deterministic 6 20 6 20 [zeroRow] rfl rfl

/-- C5: breakpoint behaviour of the trilinear model: the mid-field term is
exactly 0 at effective distance 70 and for every effective distance at most
70, saturates at `(c6 + c7*mag) * log10(140/70)` for distances at least 140,
and the far-field term is exactly 0 at 140 and for every distance at most
140; the effective distance produced by the code is always nonnegative. -/
theorem breakpoint_terms (mag : ℝ) (c : Coeff) :
    midTerm mag 70 c = 0 ∧
      farTerm mag 140 c = 0 ∧
      (∀ d : ℝ, 0 ≤ d → d ≤ 70 → midTerm mag d c = 0) ∧
      (∀ d : ℝ, 140 ≤ d →
        midTerm mag d c = (c.c6 + c.c7 * mag) * Real.logb 10 (140 / 70)) ∧
      (∀ d : ℝ, 0 ≤ d → d ≤ 140 → farTerm mag d c = 0) ∧
      (∀ dist_rup : ℝ, 0 ≤ dist dist_rup c) := by
  have hb : (1 : ℝ) < 10 := by norm_num
  have hmid : ∀ d : ℝ, 0 ≤ d → d ≤ 70 → midTerm mag d c = 0 := by
    intro d h0 h70
    have h1 : Real.logb 10 (d / 70) ≤ 0 :=
      Real.logb_nonpos hb (by positivity)
        ((div_le_one (by norm_num)).mpr h70)
    have h2 : min (Real.logb 10 (d / 70)) (Real.logb 10 (140 / 70)) ≤ 0 :=
      le_trans (min_le_left _ _) h1
    rw [midTerm, max_eq_right h2, mul_zero]
  have hfar : ∀ d : ℝ, 0 ≤ d → d ≤ 140 → farTerm mag d c = 0 := by
    intro d h0 h140
    have h1 : Real.logb 10 (d / 140) ≤ 0 :=
      Real.logb_nonpos hb (by positivity)
        ((div_le_one (by norm_num)).mpr h140)
    rw [farTerm, max_eq_right h1, mul_zero]
  have hsat : ∀ d : ℝ, 140 ≤ d →
      midTerm mag d c = (c.c6 + c.c7 * mag) * Real.logb 10 (140 / 70) := by
    intro d h140
    have hle : Real.logb 10 (140 / 70) ≤ Real.logb 10 (d / 70) :=
      Real.logb_le_logb_of_le hb (by norm_num) (by linarith)
    rw [midTerm, min_eq_right hle,
      max_eq_left (Real.logb_nonneg hb (by norm_num))]
  exact ⟨hmid 70 (by norm_num) le_rfl, hfar 140 (by norm_num) le_rfl,
    hmid, hsat, hfar, fun dr => Real.sqrt_nonneg _⟩

/-- Witness for C5: the breakpoint facts instantiated on the zero row at
`mag = 6` and concrete distances 35, 200, 100, 70 and 140. -/
theorem breakpoint_terms_witness :
    midTerm 6 70 zeroRow = 0 ∧
      farTerm 6 140 zeroRow = 0 ∧
      midTerm 6 35 zeroRow = 0 ∧
      midTerm 6 200 zeroRow =
        (zeroRow.c6 + zeroRow.c7 * 6) * Real.logb 10 (140 / 70) ∧
      farTerm 6 100 zeroRow = 0 ∧
      0 ≤ dist 20 zeroRow := by
  obtain ⟨h1, h2, h3, h4, h5, h6⟩ := breakpoint_terms 6 zeroRow
  exact ⟨h1, h2, h3 35 (by norm_num) (by norm_num), h4 200 (by norm_num),
    h5 100 (by norm_num) (by norm_num), h6 20⟩

/-- C6: for every valid input (`5 ≤ mag ≤ 8`, `0 < dist_rup ≤ 1000`) over a
23-row coefficient table, both output sequences have exactly 23 elements and
align positionally with the table: element `i` is the row formula applied to
table row `i` (every element is a well-defined real number, so in this exact
embedding no NaN or infinity can arise). -/
theorem outputs_shape (mag d : ℝ) (coeff : List Coeff)
    (hm5 : 5 ≤ mag) (hm8 : mag ≤ 8) (hd0 : 0 < d) (hd1000 : d ≤ 1000)
    (hlen : coeff.length = 23) :
    (calc_ln_resp mag d coeff).length = 23 ∧
      (calc_ln_std mag coeff).length = 23 ∧
      (∀ i : ℕ, (calc_ln_resp mag d coeff)[i]? =
        (coeff[i]?).map (calc_ln_resp_row mag d)) ∧
      (∀ i : ℕ, (calc_ln_std mag coeff)[i]? =
        (coeff[i]?).map (calc_ln_std_row mag)) := by
  refine ⟨?_, ?_, fun i => ?_, fun i => ?_⟩ <;>
    simp [calc_ln_resp, calc_ln_std, hlen]

/-- Witness for C6: the shape facts at `mag = 6`, `dist_rup = 20` over a
concrete 23-row table. -/
theorem outputs_shape_witness :
    (calc_ln_resp 6 20 (List.replicate 23 zeroRow)).length = 23 ∧
      (calc_ln_std 6 (List.replicate 23 zeroRow)).length = 23 ∧
      (∀ i : ℕ, (calc_ln_resp 6 20 (List.replicate 23 zeroRow))[i]? =
        ((List.replicate 23 zeroRow)[i]?).map (calc_ln_resp_row 6 20)) ∧
      (∀ i : ℕ, (calc_ln_std 6 (List.replicate 23 zeroRow))[i]? =
        ((List.replicate 23 zeroRow)[i]?).map (calc_ln_std_row 6)) :=
  outputs_shape 6 20 (List.replicate 23 zeroRow) (by norm_num) (by norm_num)
    (by norm_num) (by norm_num) rfl

/-- Modelled from the spec: the base `model` module (outside the excerpt)
declares `NumericParameter(name, required, min, max)` bound records; a bound
of `None` means the side is unconstrained. Inputs are exact rationals here so
the range check is decidable. -/
structure NumericParameter where
  name : String
  required : Bool
  min : Option ℚ
  max : Option ℚ

/-- Modelled from the spec: a value satisfies a `NumericParameter` when it
violates neither declared bound. -/
def NumericParameter.inRange (p : NumericParameter) (v : ℚ) : Bool :=
  (match p.min with
    | none => true
    | some lo => decide (lo ≤ v)) &&
  (match p.max with
    | none => true
    | some hi => decide (v ≤ hi))

/-- First entry of `PARAMS` (source line 37): `mag` bounded to `[5, 8]`. -/
def magParam : NumericParameter :=
  { name := "mag", required := true, min := some 5, max := some 8 }

/-- Second entry of `PARAMS` (source line 38): `dist_rup` with no declared
lower bound (`None`) and upper bound `1000`. -/
def distRupParam : NumericParameter :=
  { name := "dist_rup", required := true, min := none, max := some 1000 }

/-- The two scalar inputs bound to a model instance. -/
structure Inputs where
  mag : ℚ
  dist_rup : ℚ
deriving DecidableEq

/-- Modelled from the spec: construction validates `mag` and `dist_rup`
against `PARAMS`; an out-of-range value fails with `ParameterOutOfRange`
(modelled as `none`, no usable object), otherwise the inputs are bound
unchanged — never clamped or defaulted. -/
def construct (mag dist_rup : ℚ) : Option Inputs :=
  if magParam.inRange mag && distRupParam.inRange dist_rup then
    some { mag := mag, dist_rup := dist_rup }
  else none

/-- C3: construction rejects every magnitude below 5 or above 8 with
`ParameterOutOfRange` (in particular `mag = 4.9` and `mag = 8.1`; no usable
object results, never a clamped or defaulted one), and accepts every
magnitude in `[5, 8]` with a valid distance, binding the inputs exactly as
given. -/
theorem construct_mag_range :
    construct (49 / 10) 20 = none ∧
      construct (81 / 10) 20 = none ∧
      (∀ mag d : ℚ, mag < 5 ∨ 8 < mag → construct mag d = none) ∧
      ∀ mag d : ℚ, 5 ≤ mag → mag ≤ 8 → d ≤ 1000 →
        construct mag d = some { mag := mag, dist_rup := d } := by
  refine ⟨?_, ?_, ?_, ?_⟩
  · have h : ¬((5 : ℚ) ≤ 49 / 10) := by norm_num
    simp [construct, magParam, distRupParam, NumericParameter.inRange, h]
  · have h : ¬((81 : ℚ) / 10 ≤ 8) := by norm_num
    simp [construct, magParam, distRupParam, NumericParameter.inRange, h]
  · intro mag d h
    rcases h with h | h
    · simp [construct, magParam, distRupParam, NumericParameter.inRange,
        not_le.mpr h]
    · simp [construct, magParam, distRupParam, NumericParameter.inRange,
        not_le.mpr h]
  intro mag d h5 h8 h1000
  simp [construct, magParam, distRupParam, NumericParameter.inRange, h5, h8,
    h1000]

/-- Witness for C3: universal rejection applied at `mag = 4` and `mag = 9`,
and an in-range construction at `mag = 6`, `dist_rup = 20`. -/
theorem construct_mag_range_witness :
    construct 4 20 = none ∧
      construct 9 20 = none ∧
      construct 6 20 = some { mag := 6, dist_rup := 20 } :=
  ⟨construct_mag_range.2.2.1 4 20 (Or.inl (by norm_num)),
    construct_mag_range.2.2.1 9 20 (Or.inr (by norm_num)),
    construct_mag_range.2.2.2 6 20 (by norm_num) (by norm_num) (by norm_num)⟩

/-- Counterexample for C4: the claim says a negative `dist_rup` raises
`ParameterOutOfRange`, but `PARAMS` declares no lower bound for `dist_rup`
(`None`), so construction at `dist_rup = -1` succeeds. -/
theorem construct_neg_dist_accepted :
    construct 6 (-1) = some { mag := 6, dist_rup := -1 } := by decide

/-- C4 (amended): construction rejects every `dist_rup` above 1000 (for
example `1000.1`), accepts `dist_rup = 1000` exactly, and imposes no lower
bound on `dist_rup`. -/
theorem construct_dist_range :
    construct 6 (10001 / 10) = none ∧
      construct 6 1000 = some { mag := 6, dist_rup := 1000 } ∧
      ∀ mag d : ℚ, 1000 < d → construct mag d = none := by
  refine ⟨?_, by decide, ?_⟩
  · have h : ¬((10001 : ℚ) / 10 ≤ 1000) := by norm_num
    simp [construct, magParam, distRupParam, NumericParameter.inRange, h]
  intro mag d hd
  simp [construct, magParam, distRupParam, NumericParameter.inRange,
    not_le.mpr hd]

/-- Witness for C4: the rejection of distances above 1000 applied at
`dist_rup = 1001`. -/
theorem construct_dist_range_witness : construct 6 1001 = none :=
  construct_dist_range.2.2 6 1001 (by norm_num)

end PygmmPZT2011
